import Mathlib

/-!
Verification of the viewfetcher ingestion-and-enrichment pipeline
(`viewfetcher/processor.py`, `viewfetcher/fetchers.py`).

The Python code is shallowly embedded: every pure helper becomes a Lean
function; network calls (`fetch_youtube_batch_stats`, `fetch_metrics`) and
the external `dateutil` parser become explicit oracle parameters returning
`Except`/`Option`; raised `ValueError`s of `_load_records` become an
`Except LoadError`.  Python dict rows become association lists of
`String × Option String` (a cell may be missing, i.e. `None`).  Python
floats are modelled over `ℚ`, with `round(x, 2)` modelled as rounding
`x * 100` to the nearest integer.
-/

/-- A raw spreadsheet/CSV row: column name → optional cell text
(insertion-ordered, as a Python dict built by `csv.DictReader`). -/
structure RawRow where
  cells : List (String × Option String)
deriving DecidableEq

/-- `row = {str(k).strip().lower(): raw.get(k) for k in raw.keys()}` followed
by `row.get(key)`: the value of the last cell whose normalized column name
matches `key`, since later dict insertions overwrite earlier ones. -/
def getCell (r : RawRow) (key : String) : Option String :=
  r.cells.foldl (fun acc kv => if kv.1.trim.toLower == key then kv.2 else acc) none

/-- `ALLOWED_PLATFORMS = {"youtube", "instagram", "tiktok"}` from processor.py. -/
def ALLOWED_PLATFORMS : List String := ["youtube", "instagram", "tiktok"]

/-- Character-list version of `isPrefixOf`, used by the substring scan. -/
def isPrefixSeq : List Char → List Char → Bool
  | [], _ => true
  | _ :: _, [] => false
  | a :: t, b :: u => a == b && isPrefixSeq t u

/-- Whether `t` occurs as a contiguous subsequence of `s` (Python `in`). -/
def containsSeq (t : List Char) : List Char → Bool
  | [] => t.isEmpty
  | s@(_ :: rest) => isPrefixSeq t s || containsSeq t rest

/-- Python `sub in s` on strings. -/
def strContains (s sub : String) : Bool := containsSeq sub.toList s.toList

/-- `_infer_platform` from processor.py: substring heuristics on the
lowercased URL, first match wins. -/
def infer_platform (url : String) : String :=
  let u := url.toLower
  if strContains u "youtube.com" || strContains u "youtu.be" then "youtube"
  else if strContains u "instagram.com" then "instagram"
  else if strContains u "tiktok.com" then "tiktok"
  else ""

/-- `_clean_text` from processor.py restricted to string/None cells:
`None → None`; a string is stripped and an empty result becomes `None`. -/
def clean_text (v : Option String) : Option String :=
  match v with
  | none => none
  | some s => let t := s.trim; if t == "" then none else some t

/-- A normalized row as built in `_load_records` (processor.py lines 71-79). -/
structure NormRow where
  platform : String
  url : String
  creator : Option String
  campaign_id : Option String
  posted_at : Option String
  notes : Option String
  row_number : ℕ
deriving DecidableEq

/-- `str(row.get("url") or "").strip()` of processor.py line 60. -/
def rawUrl (raw : RawRow) : String := ((getCell raw "url").getD "").trim

/-- `str(row.get("platform") or "").strip().lower()` of processor.py line 64. -/
def rawPlatformCell (raw : RawRow) : String :=
  ((getCell raw "platform").getD "").trim.toLower

/-- The platform value after the blank-cell inference of lines 64-66. -/
def resolvedPlatform (raw : RawRow) : String :=
  if rawPlatformCell raw == "" then infer_platform (rawUrl raw) else rawPlatformCell raw

/-- One iteration of the normalization loop of `_load_records`
(processor.py lines 58-80): returns `none` when the row is dropped. -/
def normalizeRow (index : ℕ) (raw : RawRow) : Option NormRow :=
  if rawUrl raw == "" || !((rawUrl raw).toLower.startsWith "http") then none
  else if !(ALLOWED_PLATFORMS.contains (resolvedPlatform raw)) then none
  else some
    { platform := resolvedPlatform raw
      url := rawUrl raw
      creator := clean_text (getCell raw "creator")
      campaign_id := clean_text (getCell raw "campaign_id")
      posted_at := getCell raw "posted_at"
      notes := clean_text (getCell raw "notes")
      row_number := index }

/-- The whole normalization pass: `enumerate(rows, start=1)` + per-row drop. -/
def normalizeRows (rows : List RawRow) : List NormRow :=
  rows.enum.filterMap (fun p => normalizeRow (p.1 + 1) p.2)

/-- The three `ValueError`s `_load_records` can raise. -/
inductive LoadError
  | unsupportedFormat
  | emptyInput
  | noUsableRows
deriving DecidableEq

/-- `filename.lower().endswith(".csv")` / `".xlsx"` dispatch of `_load_records`. -/
def goodExt (filename : String) : Bool :=
  filename.toLower.endsWith ".csv" || filename.toLower.endsWith ".xlsx"

/-- `_load_records` (processor.py lines 46-85).  The byte-level CSV/XLSX
decoding is an external library; its output for the given bytes is the
abstract parameter `loaded` (a header-only or empty file decodes to `[]`). -/
def load_records (loaded : List RawRow) (filename : String) :
    Except LoadError (List NormRow) :=
  if goodExt filename then
    if loaded.isEmpty then .error .emptyInput
    else if (normalizeRows loaded).isEmpty then .error .noUsableRows
    else .ok (normalizeRows loaded)
  else .error .unsupportedFormat

/-- The character class `[A-Za-z0-9_-]` of `YOUTUBE_VIDEO_ID_RE` (fetchers.py). -/
def isIdChar (c : Char) : Bool :=
  c.isAlpha || c.isDigit || c == '_' || c == '-'

/-- The alternation `(?:v=|/videos/|embed/|youtu\.be/|/shorts/)` of
`YOUTUBE_VIDEO_ID_RE` (fetchers.py line 30). -/
def markers : List String := ["v=", "/videos/", "embed/", "youtu.be/", "/shorts/"]

/-- At one start position, try each alternative marker; on a marker match the
greedy group is the maximal id-char run after it, accepted when its length
reaches the regex quantifier bound `n`. -/
def tryMarkers (n : ℕ) (ms : List String) (s : List Char) : Option (List Char) :=
  match ms with
  | [] => none
  | m :: rest =>
    let mcs := m.toList
    if isPrefixSeq mcs s then
      let run := (s.drop mcs.length).takeWhile isIdChar
      if n ≤ run.length then some run else tryMarkers n rest s
    else tryMarkers n rest s

/-- `re.search` semantics: scan start positions left to right, return the
first match of the marker alternation followed by an id run of length `≥ n`. -/
def scanId (n : ℕ) : List Char → Option (List Char)
  | [] => none
  | s@(_ :: rest) =>
    match tryMarkers n markers s with
    | some r => some r
    | none => scanId n rest

/-- `extract_youtube_id` with the quantifier bound as a parameter. -/
def extract_youtube_id_gen (n : ℕ) (url : String) : Option String :=
  (scanId n url.toList).map (fun cs => ⟨cs⟩)

/-- `extract_youtube_id` (fetchers.py lines 33-35): the regex quantifier
in the source is `{6,}`. -/
def extract_youtube_id (url : String) : Option String :=
  extract_youtube_id_gen 6 url

/-- All suffixes of a character list, longest first. -/
def suffixList : List Char → List (List Char)
  | [] => [[]]
  | s@(_ :: rest) => s :: suffixList rest

/-- Extraction as the claim words it: the identifier of the first (leftmost)
position where some marker is followed by an id run of length `≥ n`. -/
def claim_extract (n : ℕ) (url : String) : Option String :=
  (((suffixList url.toList).filterMap (tryMarkers n markers)).head?).map (fun cs => ⟨cs⟩)

/-- `round(x, 2)` on a rational: round `x * 100` to the nearest integer
(the float/banker border cases of CPython are not modelled), divide back. -/
def round2 (x : ℚ) : ℚ := ((round (x * 100) : ℤ) : ℚ) / 100

/-- The engagement-rate expression of processor.py lines 160 and 185:
`round(((likes + comments) / views * 100.0), 2) if views > 0 else 0.0`. -/
def engagement (views likes comments : ℕ) : ℚ :=
  if 0 < views then round2 (((likes + comments : ℕ) : ℚ) / (views : ℚ) * 100) else 0

/-- A Python `datetime`: calendar fields plus an optional `utcoffset` in
seconds (`none` = naive, no `tzinfo`). -/
structure PyDateTime where
  y : ℤ
  mo : ℤ
  d : ℤ
  h : ℤ
  mi : ℤ
  s : ℤ
  tz : Option ℤ
deriving DecidableEq

/-- `value.replace(tzinfo=timezone.utc)`: keep the wall-clock fields, tag UTC. -/
def pyReplaceUTC (t : PyDateTime) : PyDateTime := { t with tz := some 0 }

/-- Days from civil date (proleptic Gregorian, days since 1970-01-01),
with floor division as in Python's calendar arithmetic. -/
def daysFromCivil (y m d : ℤ) : ℤ :=
  let y2 := if m ≤ 2 then y - 1 else y
  let era := Int.ediv y2 400
  let yoe := y2 - era * 400
  let mp := Int.emod (m + 9) 12
  let doy := Int.ediv (153 * mp + 2) 5 + d - 1
  let doe := yoe * 365 + Int.ediv yoe 4 - Int.ediv yoe 100 + doy
  era * 146097 + doe - 719468

/-- Civil date from days since 1970-01-01. -/
def civilFromDays (z0 : ℤ) : ℤ × ℤ × ℤ :=
  let z := z0 + 719468
  let era := Int.ediv z 146097
  let doe := z - era * 146097
  let yoe := Int.ediv (doe - Int.ediv doe 1460 + Int.ediv doe 36524 - Int.ediv doe 146096) 365
  let y := yoe + era * 400
  let doy := doe - (365 * yoe + Int.ediv yoe 4 - Int.ediv yoe 100)
  let mp := Int.ediv (5 * doy + 2) 153
  let d := doy - Int.ediv (153 * mp + 2) 5 + 1
  let m := if mp < 10 then mp + 3 else mp - 9
  (if m ≤ 2 then y + 1 else y, m, d)

/-- Seconds since epoch → wall-clock fields of the given zone tag. -/
def secToDT (t : ℤ) (tz : Option ℤ) : PyDateTime :=
  let days := Int.ediv t 86400
  let rem := Int.emod t 86400
  let c := civilFromDays days
  ⟨c.1, c.2.1, c.2.2, Int.ediv rem 3600, Int.ediv (Int.emod rem 3600) 60, Int.emod rem 60, tz⟩

/-- Seconds since epoch denoted by the wall-clock fields read as UTC. -/
def dtToSec (t : PyDateTime) : ℤ :=
  daysFromCivil t.y t.mo t.d * 86400 + t.h * 3600 + t.mi * 60 + t.s

/-- `parsed.astimezone(timezone.utc)` for an aware datetime: shift the
wall clock by the stored offset, land on offset 0. -/
def astimezoneUTC (t : PyDateTime) : PyDateTime :=
  match t.tz with
  | none => pyReplaceUTC t
  | some off => secToDT (dtToSec t - off) (some 0)

/-- The dynamically typed argument of `_parse_datetime`. -/
inductive PyVal
  | none
  | str (s : String)
  | dt (t : PyDateTime)
deriving DecidableEq

/-- `_parse_datetime` (processor.py lines 106-121).  The external
`dateutil.parser.parse` is the oracle `p`; it returns `none` where the
library would raise `ValueError`/`TypeError`. -/
def parse_datetime (p : String → Option PyDateTime) : PyVal → Option PyDateTime
  | .none => none
  | .dt t => some (if t.tz.isSome then t else pyReplaceUTC t)
  | .str s =>
    let s := s.trim
    if s == "" then none
    else
      match p s with
      | Option.none => none
      | some parsed =>
        some (if parsed.tz.isSome then astimezoneUTC parsed else pyReplaceUTC parsed)

/-- `y` is a leap year (Gregorian), as `datetime.strptime` validates it. -/
def isLeap (y : ℕ) : Bool := y % 4 == 0 && (y % 100 != 0 || y % 400 == 0)

/-- Day count of month `m` in year `y`. -/
def daysInMonth (y m : ℕ) : ℕ :=
  if m == 2 then (if isLeap y then 29 else 28)
  else if m == 4 || m == 6 || m == 9 || m == 11 then 30
  else 31

/-- Zero-pad a natural to two digits, as `datetime.isoformat` prints fields. -/
def pad2 (n : ℕ) : String := if n < 10 then "0" ++ toString n else toString n

/-- Zero-pad a year to four digits. -/
def pad4 (n : ℕ) : String :=
  if n < 10 then "000" ++ toString n
  else if n < 100 then "00" ++ toString n
  else if n < 1000 then "0" ++ toString n
  else toString n

/-- `_iso_from_upload_date` (fetchers.py lines 56-67) on a string/None input:
an 8-digit `YYYYMMDD` string that `strptime("%Y%m%d")` accepts becomes the
`isoformat()` of that date at midnight tagged UTC; anything else is `None`. -/
def iso_from_upload_date (upload_date : Option String) : Option String :=
  match upload_date with
  | none => none
  | some u =>
    if u == "" then none
    else if u.length == 8 && u.toList.all Char.isDigit then
      let y := (u.take 4).toNat?.getD 0
      let m := ((u.drop 4).take 2).toNat?.getD 0
      let d := (u.drop 6).toNat?.getD 0
      if 1 ≤ y && 1 ≤ m && m ≤ 12 && 1 ≤ d && d ≤ daysInMonth y m then
        some (pad4 y ++ "-" ++ pad2 m ++ "-" ++ pad2 d ++ "T00:00:00+00:00")
      else none
    else none

/-- One value of `fetch_youtube_batch_stats` / `fetch_by_ytdlp`: the five
keys every fetch response dict carries. -/
structure Stats where
  views : ℕ
  likes : ℕ
  comments : ℕ
  creator : Option String
  posted_at : Option String
deriving DecidableEq

/-- `stats_map.get(video_id, {})` when the id is absent: every
`stats.get(k, 0)` then defaults. -/
def zeroStats : Stats := ⟨0, 0, 0, none, none⟩

/-- Python `a or b` on optional strings (`None` and `""` are falsy). -/
def pyOrStr (a b : Option String) : Option String :=
  if a.getD "" == "" then b else a

/-- Lift an optional string cell into a `_parse_datetime` argument. -/
def toPyVal : Option String → PyVal
  | Option.none => PyVal.none
  | some s => PyVal.str s

/-- The result dict appended for a YouTube row (processor.py lines 161-172). -/
structure Enriched where
  platform : String
  url : String
  creator : Option String
  campaign_id : Option String
  posted_at : Option PyDateTime
  views : ℕ
  likes : ℕ
  comments : ℕ
  engagement_rate : ℚ
  notes : Option String
deriving DecidableEq

/-- Assemble the enriched dict of processor.py lines 156-172 for a YouTube
row from its (possibly defaulted) stats. -/
def mkYtEnriched (dp : String → Option PyDateTime) (row : NormRow) (stats : Stats) : Enriched :=
  { platform := "youtube"
    url := row.url
    creator := pyOrStr stats.creator row.creator
    campaign_id := row.campaign_id
    posted_at := parse_datetime dp (toPyVal (pyOrStr stats.posted_at row.posted_at))
    views := stats.views
    likes := stats.likes
    comments := stats.comments
    engagement_rate := engagement stats.views stats.likes stats.comments
    notes := row.notes }

/-- Assemble the enriched dict of processor.py lines 182-197 for an
Instagram/TikTok row. -/
def mkOtherEnriched (dp : String → Option PyDateTime) (row : NormRow) (stats : Stats) : Enriched :=
  { platform := row.platform
    url := row.url
    creator := pyOrStr stats.creator row.creator
    campaign_id := row.campaign_id
    posted_at := parse_datetime dp (toPyVal (pyOrStr stats.posted_at row.posted_at))
    views := stats.views
    likes := stats.likes
    comments := stats.comments
    engagement_rate := engagement stats.views stats.likes stats.comments
    notes := row.notes }

/-- `"YouTube 数据未抓取：缺少 API Key"` (processor.py line 135). -/
def missingKeyMsg : String := "YouTube 数据未抓取：缺少 API Key"

/-- The f-string of processor.py line 153 for a failing chunk at 0-based
offset `i` with `len` ids. -/
def chunkErrMsg (i len : ℕ) (e : String) : String :=
  "YouTube 抓取失败（" ++ toString (i + 1) ++ "-" ++ toString (i + len) ++ "）：" ++ e

/-- The f-string of processor.py line 200 for a failing Instagram/TikTok row. -/
def rowErrMsg (platform : String) (hint : ℕ) (e : String) : String :=
  platform ++ " 抓取失败（第 " ++ toString hint ++ " 行）：" ++ e

/-- `stats_map.update(part)`: each entry of `part` overwrites, later
entries of `part` win. -/
def updMap (m : String → Option Stats) (part : List (String × Stats)) :
    String → Option Stats :=
  part.foldl (fun acc kv => fun s => if s == kv.1 then some kv.2 else acc s) m

/-- The chunk decomposition of `for i in range(0, len(ids), 50)` with
`batch = ids[i:i+50]` (processor.py lines 146-148): 0-based offset paired
with the slice, one entry per loop iteration. -/
def ytChunks (ids : List String) : List (ℕ × List String) :=
  (List.range ((ids.length + 49) / 50)).map
    (fun j => (j * 50, (ids.drop (j * 50)).take 50))

/-- The chunk loop of processor.py lines 145-153: merge successful chunk
responses into the stats map, append one error per failing chunk. -/
def ytRun (fetch : List String → String → Except String (List (String × Stats)))
    (k : String) : List (ℕ × List String) → (String → Option Stats) → List String →
    (String → Option Stats) × List String
  | [], m, errs => (m, errs)
  | (i, batch) :: rest, m, errs =>
    match fetch batch k with
    | .ok part => ytRun fetch k rest (updMap m part) errs
    | .error e => ytRun fetch k rest m (errs ++ [chunkErrMsg i batch.length e])

/-- The `(video_id, row)` pairs of processor.py lines 139-143: rows whose
URL yields no id are skipped. -/
def ytIndexed (rows : List NormRow) : List (String × NormRow) :=
  rows.filterMap (fun r => (extract_youtube_id r.url).map (fun v => (v, r)))

/-- The `ids` list accumulated alongside `indexed_rows`. -/
def ytIds (rows : List NormRow) : List String :=
  (ytIndexed rows).map (fun p => p.1)

/-- All chunked batch calls for the given rows: final stats map and errors. -/
def ytFetchAll (fetch : List String → String → Except String (List (String × Stats)))
    (k : String) (rows : List NormRow) : (String → Option Stats) × List String :=
  ytRun fetch k (ytChunks (ytIds rows)) (fun _ => none) []

/-- The with-key YouTube branch (processor.py lines 136-172): fetch all
chunks, then enrich every indexed row from the merged map. -/
def ytPhase (fetch : List String → String → Except String (List (String × Stats)))
    (dp : String → Option PyDateTime) (k : String) (rows : List NormRow) :
    List Enriched × List String :=
  ((ytIndexed rows).map
      (fun pr => mkYtEnriched dp pr.2 (((ytFetchAll fetch k rows).1 pr.1).getD zeroStats)),
   (ytFetchAll fetch k rows).2)

/-- The whole YouTube section (processor.py lines 131-172): skipped when
there is no YouTube row; one aggregate error when `not youtube_api_key`. -/
def ytPart (fetch : List String → String → Except String (List (String × Stats)))
    (dp : String → Option PyDateTime) (key : Option String) (ytrows : List NormRow) :
    List Enriched × List String :=
  if ytrows.isEmpty then ([], [])
  else if key.getD "" == "" then ([], [missingKeyMsg])
  else ytPhase fetch dp (key.getD "") ytrows

/-- The Instagram/TikTok loop (processor.py lines 176-200), carrying the
1-based `enumerate` counter `idx`. -/
def otherLoop (metrics : String → String → Except String Stats)
    (dp : String → Option PyDateTime) (idx : ℕ) :
    List NormRow → List Enriched × List String
  | [] => ([], [])
  | r :: rest =>
    match metrics r.platform r.url with
    | .ok stats =>
      (mkOtherEnriched dp r stats :: (otherLoop metrics dp (idx + 1) rest).1,
       (otherLoop metrics dp (idx + 1) rest).2)
    | .error e =>
      ((otherLoop metrics dp (idx + 1) rest).1,
       rowErrMsg r.platform (if r.row_number == 0 then idx else r.row_number) e
         :: (otherLoop metrics dp (idx + 1) rest).2)

/-- The post-load body of `process_file` (processor.py lines 128-202). -/
def pipeline (fetch : List String → String → Except String (List (String × Stats)))
    (metrics : String → String → Except String Stats)
    (dp : String → Option PyDateTime)
    (key : Option String) (rows : List NormRow) : List Enriched × List String :=
  ((ytPart fetch dp key (rows.filter (fun r => r.platform == "youtube"))).1
     ++ (otherLoop metrics dp 1
          (rows.filter (fun r => r.platform == "instagram" || r.platform == "tiktok"))).1,
   (ytPart fetch dp key (rows.filter (fun r => r.platform == "youtube"))).2
     ++ (otherLoop metrics dp 1
          (rows.filter (fun r => r.platform == "instagram" || r.platform == "tiktok"))).2)

/-- `process_file` (processor.py lines 124-202): load + normalize may fail
terminally; past that, the pipeline always returns results and errors. -/
def process_file (fetch : List String → String → Except String (List (String × Stats)))
    (metrics : String → String → Except String Stats)
    (dp : String → Option PyDateTime)
    (loaded : List RawRow) (filename : String) (key : Option String) :
    Except LoadError (List Enriched × List String) :=
  Except.map (pipeline fetch metrics dp key) (load_records loaded filename)

deriving instance DecidableEq for Except

/-- Whether an `Except` is a success. -/
def exceptIsOk : Except ε α → Bool
  | .ok _ => true
  | .error _ => false

/-- The silent-drop condition of `_load_records`: a URL cell that is empty or
does not start with `http` after trimming, or a non-blank platform cell whose
trimmed lowercase value is outside the supported set. -/
def badRow (r : RawRow) : Prop :=
  (rawUrl r = "" ∨ (rawUrl r).toLower.startsWith "http" = false)
  ∨ (rawPlatformCell r ≠ "" ∧ ALLOWED_PLATFORMS.contains (rawPlatformCell r) = false)

instance (r : RawRow) : Decidable (badRow r) := by unfold badRow; exact inferInstance

/-- Sample batch-stats oracle that always succeeds with an empty item list. -/
def wFetchOk : List String → String → Except String (List (String × Stats)) :=
  fun _ _ => .ok []

/-- Sample per-row metrics oracle returning fixed counts. -/
def wMetricsOk : String → String → Except String Stats :=
  fun _ _ => .ok ⟨10, 2, 1, none, none⟩

/-- Sample per-row metrics oracle that always fails. -/
def wMetricsErr : String → String → Except String Stats :=
  fun _ _ => .error "down"

/-- Sample external date parser that never parses. -/
def wDpNone : String → Option PyDateTime := fun _ => none

/-- Sample raw row with an Instagram URL and no platform column. -/
def wRawIG : RawRow := ⟨[("url", some "http://instagram.com/p/1")]⟩

/-- Sample raw row whose URL is not HTTP. -/
def wRawBad : RawRow := ⟨[("url", some "ftp://example.com/x"), ("platform", some "youtube")]⟩

/-- The normalized form of `wRawIG`. -/
def wNormIG : NormRow := ⟨"instagram", "http://instagram.com/p/1", none, none, none, none, 1⟩

/-- Fixed sample stats. -/
def wStats : Stats := ⟨10, 2, 1, none, none⟩

/-- Sample normalized YouTube row with an extractable 8-character id. -/
def wNormYT : NormRow := ⟨"youtube", "https://youtu.be/abcdefgh", none, none, none, none, 1⟩

/-- Sample normalized YouTube row whose URL yields no id. -/
def wNormYTBad : NormRow := ⟨"youtube", "https://example.com/x", none, none, none, none, 1⟩

/-- 120 synthetic video ids `v0`, …, `v119`. -/
def w2ids : List String := (List.range 120).map (fun n => "v" ++ toString n)

/-- Batch oracle failing exactly on the chunk that starts with `v50`. -/
def w2fetch : List String → String → Except String (List (String × Stats)) :=
  fun b _ => if b.head? == some "v50" then .error "boom" else .ok []

/-- An aware non-UTC datetime used to refute the unamended C8. -/
def w8aware : PyDateTime := ⟨2023, 1, 15, 10, 0, 0, some 3600⟩

/-- Sample external date parser resolving two fixed strings. -/
def w8p : String → Option PyDateTime := fun s =>
  if s == "2023-01-15" then some ⟨2023, 1, 15, 0, 0, 0, none⟩
  else if s == "awareX" then some ⟨2023, 1, 15, 10, 0, 0, some 3600⟩
  else none

/-- `scanId` agrees with the claim-style description: the first suffix at
which some marker is followed by a long-enough id run. -/
theorem scanId_eq_claim (n : ℕ) :
    ∀ s : List Char, scanId n s = ((suffixList s).filterMap (tryMarkers n markers)).head?
  | [] => by rfl
  | a :: rest => by
    rw [scanId, suffixList, List.filterMap_cons]
    cases h : tryMarkers n markers (a :: rest) with
    | some r => simp
    | none => simpa using scanId_eq_claim n rest

/-- Rounding a nonnegative rational is nonnegative. -/
theorem round_nonneg_of_nonneg (q : ℚ) (h : 0 ≤ q) : 0 ≤ round q := by
  rw [round_eq]
  exact_mod_cast Int.floor_nonneg.mpr (by linarith)

/-- `round2` preserves nonnegativity. -/
theorem round2_nonneg (q : ℚ) (h : 0 ≤ q) : 0 ≤ round2 q := by
  unfold round2
  have h1 : (0 : ℚ) ≤ ((round (q * 100) : ℤ) : ℚ) := by
    exact_mod_cast round_nonneg_of_nonneg (q * 100) (by positivity)
  positivity

/-- The engagement rate is never negative. -/
theorem engagement_nonneg (v l c : ℕ) : 0 ≤ engagement v l c := by
  unfold engagement
  split
  · exact round2_nonneg _ (by positivity)
  · exact le_refl 0

/-- Every result emitted by the Instagram/TikTok loop is an
`mkOtherEnriched` of some row of the list. -/
theorem otherLoop_results_shape (metrics : String → String → Except String Stats)
    (dp : String → Option PyDateTime) :
    ∀ (rs : List NormRow) (idx : ℕ) (e : Enriched), e ∈ (otherLoop metrics dp idx rs).1 →
      ∃ r stats, r ∈ rs ∧ e = mkOtherEnriched dp r stats := by
  intro rs
  induction rs with
  | nil => intro idx e he; simp [otherLoop] at he
  | cons r rest ih =>
    intro idx e he
    rw [otherLoop] at he
    cases hm : metrics r.platform r.url with
    | ok s =>
      rw [hm] at he
      rcases List.mem_cons.mp he with h | h
      · exact ⟨r, s, List.mem_cons_self r rest, h⟩
      · obtain ⟨r', st', hr', he'⟩ := ih (idx + 1) e h
        exact ⟨r', st', List.mem_cons_of_mem r hr', he'⟩
    | error msg =>
      rw [hm] at he
      obtain ⟨r', st', hr', he'⟩ := ih (idx + 1) e he
      exact ⟨r', st', List.mem_cons_of_mem r hr', he'⟩

/-- Every error emitted by the Instagram/TikTok loop is a `rowErrMsg` whose
platform is the platform of some row of the list. -/
theorem otherLoop_errors_shape (metrics : String → String → Except String Stats)
    (dp : String → Option PyDateTime) :
    ∀ (rs : List NormRow) (idx : ℕ) (s : String), s ∈ (otherLoop metrics dp idx rs).2 →
      ∃ r n msg, r ∈ rs ∧ s = rowErrMsg r.platform n msg := by
  intro rs
  induction rs with
  | nil => intro idx s hs; simp [otherLoop] at hs
  | cons r rest ih =>
    intro idx s hs
    rw [otherLoop] at hs
    cases hm : metrics r.platform r.url with
    | ok st =>
      rw [hm] at hs
      obtain ⟨r', n', m', hr', hs'⟩ := ih (idx + 1) s hs
      exact ⟨r', n', m', List.mem_cons_of_mem r hr', hs'⟩
    | error msg =>
      rw [hm] at hs
      rcases List.mem_cons.mp hs with h | h
      · exact ⟨r, _, msg, List.mem_cons_self r rest, h⟩
      · obtain ⟨r', n', m', hr', hs'⟩ := ih (idx + 1) s h
        exact ⟨r', n', m', List.mem_cons_of_mem r hr', hs'⟩

/-- Every result emitted by the YouTube section is an `mkYtEnriched`. -/
theorem ytPart_results_shape
    (fetch : List String → String → Except String (List (String × Stats)))
    (dp : String → Option PyDateTime) (key : Option String) (ytrows : List NormRow)
    (e : Enriched) (he : e ∈ (ytPart fetch dp key ytrows).1) :
    ∃ row stats, e = mkYtEnriched dp row stats := by
  unfold ytPart at he
  split at he
  · simp at he
  · split at he
    · simp at he
    · unfold ytPhase at he
      obtain ⟨pr, _, hpr⟩ := List.mem_map.mp he
      exact ⟨pr.2, _, hpr.symm⟩

/-- A head character survives string append. -/
theorem head_append (s t : String) (c : Char) (h : s.data.head? = some c) :
    (s ++ t).data.head? = some c := by
  cases s with
  | mk data =>
    cases data with
    | nil => simp at h
    | cons a l =>
      cases t with
      | mk td => simpa [String.append] using h

example : extract_youtube_id "https://www.youtube.com/watch?v=dQw4w9WgXcQ" = some "dQw4w9WgXcQ" := by decide
example : extract_youtube_id "https://youtu.be/abcdef" = some "abcdef" := by decide
example : extract_youtube_id "https://example.com/x" = none := by decide
example : engagement 10 2 1 = 30 := by with_unfolding_all decide
example : engagement 0 5 5 = 0 := by decide
example : astimezoneUTC ⟨2023, 1, 15, 10, 0, 0, some 3600⟩ = ⟨2023, 1, 15, 9, 0, 0, some 0⟩ := by decide
example : iso_from_upload_date (some "20220304") = some "2022-03-04T00:00:00+00:00" := by
  with_unfolding_all decide

/-- C6 (counterexample): the claim bounds the identifier length at 11, but the
source regex quantifier is `{6,}`: for `"https://youtu.be/abcdef"` no marker is
followed by an 11-character id run, yet `extract_youtube_id` returns
`some "abcdef"` rather than nothing. -/
theorem C6_extract_id_counterexample :
    extract_youtube_id "https://youtu.be/abcdef" = some "abcdef" ∧
    claim_extract 11 "https://youtu.be/abcdef" = none := by
  constructor
  · decide
  · decide

/-- C6 (amended): the YouTube identifier extractor returns an identifier
exactly when the URL contains one of the markers `v=`, `/videos/`, `embed/`,
`youtu.be/`, `/shorts/` followed by at least 6 (not 11) characters drawn from
`[A-Za-z0-9_-]`, and it returns the first (leftmost) such maximal run. -/
theorem C6_extract_id_amended (url : String) :
    extract_youtube_id url = claim_extract 6 url := by
  unfold extract_youtube_id extract_youtube_id_gen claim_extract
  rw [scanId_eq_claim]

/-- C7: a YouTube row whose extracted identifier is absent from the merged
chunk-response map is still enriched — with zero views/likes/comments and a
zero engagement rate — rather than raising. -/
theorem C7_absent_id_zero
    (fetch : List String → String → Except String (List (String × Stats)))
    (dp : String → Option PyDateTime) (k : String) (ytrows : List NormRow)
    (vid : String) (row : NormRow)
    (hmem : (vid, row) ∈ ytIndexed ytrows)
    (habs : (ytFetchAll fetch k ytrows).1 vid = none) :
    mkYtEnriched dp row zeroStats ∈ (ytPhase fetch dp k ytrows).1 ∧
    (mkYtEnriched dp row zeroStats).views = 0 ∧
    (mkYtEnriched dp row zeroStats).likes = 0 ∧
    (mkYtEnriched dp row zeroStats).comments = 0 ∧
    (mkYtEnriched dp row zeroStats).engagement_rate = 0 := by
  refine ⟨?_, rfl, rfl, rfl, ?_⟩
  · have h := List.mem_map_of_mem
      (fun pr : String × NormRow =>
        mkYtEnriched dp pr.2 (((ytFetchAll fetch k ytrows).1 pr.1).getD zeroStats)) hmem
    unfold ytPhase
    simpa [habs] using h
  · show engagement 0 0 0 = 0
    rfl

/-- C7 witness: a concrete YouTube row whose id `abcdefgh` is missing from an
empty batch response is enriched with a zero engagement rate. -/
theorem C7_absent_id_zero_witness :
    (mkYtEnriched wDpNone wNormYT zeroStats).engagement_rate = 0 :=
  (C7_absent_id_zero wFetchOk wDpNone "K" [wNormYT] "abcdefgh" wNormYT
    (by decide) (by decide)).2.2.2.2

/-- C9: the pipeline output is a deterministic function of the file rows, the
filename, the API key and the fetch-call responses (here explicit oracle
arguments): two invocations on equal inputs return identical results and
errors.  Timestamps stamped at persistence time live in the db layer, outside
`process_file`. -/
theorem C9_deterministic
    (fetch fetch' : List String → String → Except String (List (String × Stats)))
    (metrics metrics' : String → String → Except String Stats)
    (dp dp' : String → Option PyDateTime)
    (loaded loaded' : List RawRow) (fn fn' : String) (key key' : Option String)
    (hf : fetch = fetch') (hm : metrics = metrics') (hd : dp = dp')
    (hl : loaded = loaded') (hfn : fn = fn') (hk : key = key') :
    process_file fetch metrics dp loaded fn key =
      process_file fetch' metrics' dp' loaded' fn' key' := by
  subst hf; subst hm; subst hd; subst hl; subst hfn; subst hk; rfl

/-- C9 witness: two identical invocations on a concrete file agree. -/
theorem C9_deterministic_witness :
    process_file wFetchOk wMetricsOk wDpNone [wRawIG] "a.csv" none =
      process_file wFetchOk wMetricsOk wDpNone [wRawIG] "a.csv" none :=
  C9_deterministic wFetchOk wFetchOk wMetricsOk wMetricsOk wDpNone wDpNone
    [wRawIG] [wRawIG] "a.csv" "a.csv" none none rfl rfl rfl rfl rfl rfl

/-- An enriched row whose rate field equals the engagement formula of its
count fields satisfies claim C1's per-result property. -/
theorem rate_conclusion (e : Enriched)
    (hrate : e.engagement_rate = engagement e.views e.likes e.comments) :
    (e.engagement_rate =
      if 0 < e.views then
        round2 (((e.likes + e.comments : ℕ) : ℚ) / (e.views : ℚ) * 100)
      else 0)
    ∧ 0 ≤ e.engagement_rate := by
  constructor
  · rw [hrate]; rfl
  · rw [hrate]; exact engagement_nonneg _ _ _

/-- C1: every enriched result produced by `process_file` carries
`engagement_rate = round((likes + comments) / views * 100, 2)` when
`views > 0` and `0` when `views = 0`; the value is never negative.  The
guard makes the division-by-zero branch unreachable, and over `ℚ` every
value is finite. -/
theorem C1_engagement_formula
    (fetch : List String → String → Except String (List (String × Stats)))
    (metrics : String → String → Except String Stats)
    (dp : String → Option PyDateTime)
    (loaded : List RawRow) (fn : String) (key : Option String)
    (res : List Enriched) (errs : List String)
    (h : process_file fetch metrics dp loaded fn key = .ok (res, errs)) :
    ∀ e ∈ res,
      (e.engagement_rate =
        if 0 < e.views then
          round2 (((e.likes + e.comments : ℕ) : ℚ) / (e.views : ℚ) * 100)
        else 0)
      ∧ 0 ≤ e.engagement_rate := by
  unfold process_file at h
  cases hl : load_records loaded fn with
  | error err => rw [hl] at h; simp [Except.map] at h
  | ok nrows =>
    rw [hl] at h
    simp only [Except.map, Except.ok.injEq] at h
    have hres : res = (pipeline fetch metrics dp key nrows).1 := by rw [h]
    intro e he
    rw [hres] at he
    unfold pipeline at he
    rcases List.mem_append.mp he with hyt | hot
    · obtain ⟨row, stats, he2⟩ := ytPart_results_shape fetch dp key _ e hyt
      subst he2
      exact rate_conclusion _ rfl
    · obtain ⟨row, stats, _, he2⟩ := otherLoop_results_shape metrics dp _ 1 e hot
      subst he2
      exact rate_conclusion _ rfl

/-- C1 witness: processing a concrete one-row Instagram file yields a result
whose rate satisfies the formula and is nonnegative. -/
theorem C1_engagement_formula_witness :
    0 ≤ (mkOtherEnriched wDpNone wNormIG wStats).engagement_rate :=
  (C1_engagement_formula wFetchOk wMetricsOk wDpNone [wRawIG] "a.csv" none
      [mkOtherEnriched wDpNone wNormIG wStats] []
      (by with_unfolding_all decide)
      (mkOtherEnriched wDpNone wNormIG wStats) (List.mem_cons_self _ _)).2

/-- A successfully normalized row records its 1-based source position. -/
theorem normalizeRow_row_number (i : ℕ) (raw : RawRow) (nr : NormRow)
    (h : normalizeRow i raw = some nr) : nr.row_number = i := by
  unfold normalizeRow at h
  split at h
  · exact Option.noConfusion h
  · split at h
    · exact Option.noConfusion h
    · obtain rfl := Option.some.inj h
      rfl

/-- C4: a raw row whose URL cell is empty or not HTTP, or whose non-blank
platform cell is outside the supported set, is dropped silently by the
normalizer: it yields no normalized row at any position, so no normalized
row — and hence nothing downstream of the normalizer — carries its 1-based
source position. -/
theorem C4_silent_drop (r : RawRow) (h : badRow r) :
    (∀ i, normalizeRow i r = none) ∧
    (∀ (rows : List RawRow) (j : ℕ), rows[j]? = some r →
      ∀ nr ∈ normalizeRows rows, nr.row_number ≠ j + 1) := by
  have h1 : ∀ i, normalizeRow i r = none := by
    intro i
    unfold normalizeRow
    rcases h with hurl | ⟨hne, hcont⟩
    · have hc : (rawUrl r == "" || !((rawUrl r).toLower.startsWith "http")) = true := by
        rcases hurl with h' | h'
        · simp [h']
        · simp [h']
      simp [hc]
    · have hp : resolvedPlatform r = rawPlatformCell r := by
        unfold resolvedPlatform
        simp [hne]
      cases hc : (rawUrl r == "" || !((rawUrl r).toLower.startsWith "http")) with
      | true => simp [hc]
      | false =>
        simp [hc, hp]
        simpa using hcont
  refine ⟨h1, ?_⟩
  intro rows j hget nr hmem hrow
  obtain ⟨⟨k, raw⟩, hk, hnorm⟩ := List.mem_filterMap.mp hmem
  have hnum : nr.row_number = k + 1 := normalizeRow_row_number _ _ _ hnorm
  rw [hrow] at hnum
  have hkj : k = j := by omega
  subst hkj
  have hraw : rows[k]? = some raw := List.mem_enum_iff_getElem?.mp hk
  rw [hget] at hraw
  obtain rfl := Option.some.inj hraw
  rw [h1 (k + 1)] at hnorm
  exact Option.noConfusion hnorm

/-- C4 witness: a concrete row with a non-HTTP URL normalizes to nothing. -/
theorem C4_silent_drop_witness : normalizeRow 1 wRawBad = none :=
  (C4_silent_drop wRawBad (by with_unfolding_all decide)).1 1

/-- C5: `process_file` fails terminally exactly when the extension is
unsupported, the loaded file has no data rows, or no usable row survives
filtering; and a failing Instagram/TikTok row appends exactly one error
naming the platform and the row's original 1-based position while the loop
continues with the remaining rows. -/
theorem C5_error_tiers
    (fetch : List String → String → Except String (List (String × Stats)))
    (metrics : String → String → Except String Stats)
    (dp : String → Option PyDateTime) :
    (∀ (loaded : List RawRow) (fn : String) (key : Option String),
       exceptIsOk (process_file fetch metrics dp loaded fn key) = false ↔
         (goodExt fn = false ∨ loaded = [] ∨ normalizeRows loaded = []))
    ∧ (∀ (idx : ℕ) (r : NormRow) (rest : List NormRow) (e : String),
        metrics r.platform r.url = .error e →
        otherLoop metrics dp idx (r :: rest) =
          ((otherLoop metrics dp (idx + 1) rest).1,
           rowErrMsg r.platform (if r.row_number == 0 then idx else r.row_number) e
             :: (otherLoop metrics dp (idx + 1) rest).2)) := by
  constructor
  · intro loaded fn key
    unfold process_file load_records
    cases hg : goodExt fn with
    | false =>
      simp [Except.map, exceptIsOk]
    | true =>
      cases hl : loaded.isEmpty with
      | true =>
        simp [Except.map, exceptIsOk, List.isEmpty_iff.mp hl]
      | false =>
        cases hn : (normalizeRows loaded).isEmpty with
        | true =>
          simp [Except.map, exceptIsOk, List.isEmpty_iff.mp hn]
        | false =>
          have h2 : loaded ≠ [] := by simpa using hl
          have h3 : normalizeRows loaded ≠ [] := by simpa using hn
          simp [Except.map, exceptIsOk, h2, h3]
  · intro idx r rest e hm
    rw [otherLoop, hm]

/-- C5 witness: an unsupported extension fails terminally, and one failing
Instagram row yields exactly one platform-and-row-numbered error. -/
theorem C5_error_tiers_witness :
    exceptIsOk (process_file wFetchOk wMetricsOk wDpNone [wRawIG] "a.txt" none) = false ∧
    otherLoop wMetricsErr wDpNone 1 [wNormIG] = ([], [rowErrMsg "instagram" 1 "down"]) := by
  constructor
  · exact ((C5_error_tiers wFetchOk wMetricsOk wDpNone).1 [wRawIG] "a.txt" none).mpr
      (Or.inl (by with_unfolding_all decide))
  · rw [(C5_error_tiers wFetchOk wMetricsErr wDpNone).2 1 wNormIG [] "down" rfl]
    rfl

/-- An Instagram/TikTok per-row error string never coincides with the
aggregate missing-key message (their first characters differ). -/
theorem rowErrMsg_ne_missingKey (p : String) (n : ℕ) (m : String)
    (hp : p = "instagram" ∨ p = "tiktok") : rowErrMsg p n m ≠ missingKeyMsg := by
  intro heq
  have hh := congrArg (fun s : String => s.data.head?) heq
  simp only [] at hh
  have h2 : missingKeyMsg.data.head? = some 'Y' := rfl
  rcases hp with hp | hp <;> subst hp
  · have h1 : (rowErrMsg "instagram" n m).data.head? = some 'i' := by
      unfold rowErrMsg
      apply head_append
      apply head_append
      apply head_append
      apply head_append
      rfl
    rw [h1, h2] at hh
    exact absurd hh (by decide)
  · have h1 : (rowErrMsg "tiktok" n m).data.head? = some 't' := by
      unfold rowErrMsg
      apply head_append
      apply head_append
      apply head_append
      apply head_append
      rfl
    rw [h1, h2] at hh
    exact absurd hh (by decide)

/-- C3: with at least one YouTube row and a falsy API key, the pipeline
appends exactly one aggregate missing-key error, performs no batch fetch at
all (the output does not depend on the batch oracle), and returns no YouTube
result, while Instagram/TikTok rows are processed unchanged. -/
theorem C3_missing_key
    (fetch fetch' : List String → String → Except String (List (String × Stats)))
    (metrics : String → String → Except String Stats)
    (dp : String → Option PyDateTime) (key : Option String) (rows : List NormRow)
    (hyt : rows.filter (fun r => r.platform == "youtube") ≠ [])
    (hkey : key.getD "" = "") :
    pipeline fetch metrics dp key rows =
      ((otherLoop metrics dp 1
          (rows.filter (fun r => r.platform == "instagram" || r.platform == "tiktok"))).1,
       missingKeyMsg ::
         (otherLoop metrics dp 1
           (rows.filter (fun r => r.platform == "instagram" || r.platform == "tiktok"))).2)
    ∧ pipeline fetch metrics dp key rows = pipeline fetch' metrics dp key rows
    ∧ (∀ e ∈ (pipeline fetch metrics dp key rows).1, e.platform ≠ "youtube")
    ∧ (pipeline fetch metrics dp key rows).2.count missingKeyMsg = 1 := by
  have hyt' : (rows.filter (fun r => r.platform == "youtube")).isEmpty = false := by
    simpa using hyt
  have hpart : ∀ f : List String → String → Except String (List (String × Stats)),
      ytPart f dp key (rows.filter (fun r => r.platform == "youtube")) =
        ([], [missingKeyMsg]) := by
    intro f
    unfold ytPart
    rw [hyt']
    simp [hkey]
  have h1 : pipeline fetch metrics dp key rows =
      ((otherLoop metrics dp 1
          (rows.filter (fun r => r.platform == "instagram" || r.platform == "tiktok"))).1,
       missingKeyMsg ::
         (otherLoop metrics dp 1
           (rows.filter (fun r => r.platform == "instagram" || r.platform == "tiktok"))).2) := by
    unfold pipeline
    rw [hpart fetch]
    simp
  have h1' : pipeline fetch' metrics dp key rows =
      ((otherLoop metrics dp 1
          (rows.filter (fun r => r.platform == "instagram" || r.platform == "tiktok"))).1,
       missingKeyMsg ::
         (otherLoop metrics dp 1
           (rows.filter (fun r => r.platform == "instagram" || r.platform == "tiktok"))).2) := by
    unfold pipeline
    rw [hpart fetch']
    simp
  refine ⟨h1, h1.trans h1'.symm, ?_, ?_⟩
  · intro e he
    rw [h1] at he
    obtain ⟨r, st, hr, rfl⟩ := otherLoop_results_shape metrics dp _ 1 e he
    have hcond := (List.mem_filter.mp hr).2
    rcases Bool.or_eq_true_iff.mp hcond with hb | hb
    · have : r.platform = "instagram" := by simpa using hb
      show (mkOtherEnriched dp r st).platform ≠ "youtube"
      unfold mkOtherEnriched
      simp [this]
    · have : r.platform = "tiktok" := by simpa using hb
      show (mkOtherEnriched dp r st).platform ≠ "youtube"
      unfold mkOtherEnriched
      simp [this]
  · rw [h1]
    have hz : (otherLoop metrics dp 1
        (rows.filter (fun r => r.platform == "instagram" || r.platform == "tiktok"))).2.count
          missingKeyMsg = 0 := by
      apply List.count_eq_zero.mpr
      intro hmem
      obtain ⟨r, n', m', hr, heq⟩ := otherLoop_errors_shape metrics dp _ 1 missingKeyMsg hmem
      have hcond := (List.mem_filter.mp hr).2
      have hplat : r.platform = "instagram" ∨ r.platform = "tiktok" := by
        rcases Bool.or_eq_true_iff.mp hcond with hb | hb
        · exact Or.inl (by simpa using hb)
        · exact Or.inr (by simpa using hb)
      exact rowErrMsg_ne_missingKey r.platform n' m' hplat heq.symm
    simp [List.count_cons_self, hz]

/-- C3 witness: one YouTube row, no key — exactly one aggregate error. -/
theorem C3_missing_key_witness :
    (pipeline wFetchOk wMetricsOk wDpNone none [wNormYT]).2.count missingKeyMsg = 1 :=
  (C3_missing_key wFetchOk wFetchOk wMetricsOk wDpNone none [wNormYT]
    (by with_unfolding_all decide) rfl).2.2.2

/-- Dropping a row whose URL yields no identifier does not change the
YouTube section's output when an API key is present. -/
theorem ytPart_skip_row
    (fetch : List String → String → Except String (List (String × Stats)))
    (dp : String → Option PyDateTime) (key : Option String)
    (a b : List NormRow) (row : NormRow)
    (hk : key.getD "" ≠ "") (hx : extract_youtube_id row.url = none) :
    ytPart fetch dp key (a ++ row :: b) = ytPart fetch dp key (a ++ b) := by
  have hidx : ytIndexed (a ++ row :: b) = ytIndexed (a ++ b) := by
    unfold ytIndexed
    simp [List.filterMap_append, List.filterMap_cons, hx]
  have hkb : (key.getD "" == "") = false := by simpa using hk
  unfold ytPart
  cases hre : (a ++ b).isEmpty with
  | false =>
    have hle : (a ++ row :: b).isEmpty = false := by
      cases a <;> simp
    rw [hle, hkb]
    simp only [Bool.false_eq_true, if_false]
    unfold ytPhase ytFetchAll ytIds
    rw [hidx]
  | true =>
    obtain ⟨rfl, rfl⟩ : a = [] ∧ b = [] := by simpa using hre
    simp only [List.nil_append]
    have hle : ([row] : List NormRow).isEmpty = false := rfl
    rw [hle, hkb]
    simp only [Bool.false_eq_true, if_false, List.isEmpty_nil, if_true]
    unfold ytPhase ytFetchAll ytIds ytIndexed
    simp [hx, ytChunks, ytRun]

/-- C10: a normalized YouTube row whose URL yields no extractable identifier
(with a valid API key) contributes neither a result nor an error: the whole
pipeline output is as if the row were absent. -/
theorem C10_unextractable
    (fetch : List String → String → Except String (List (String × Stats)))
    (metrics : String → String → Except String Stats)
    (dp : String → Option PyDateTime) (key : Option String)
    (pre post : List NormRow) (row : NormRow)
    (hk : key.getD "" ≠ "")
    (hp : row.platform = "youtube")
    (hx : extract_youtube_id row.url = none) :
    pipeline fetch metrics dp key (pre ++ row :: post) =
      pipeline fetch metrics dp key (pre ++ post) := by
  have hoc : (row.platform == "instagram" || row.platform == "tiktok") = false := by
    rw [hp]; with_unfolding_all decide
  have hyc : (row.platform == "youtube") = true := by
    rw [hp]; with_unfolding_all decide
  unfold pipeline
  simp only [List.filter_append, List.filter_cons, hoc, hyc, Bool.false_eq_true,
    if_false, if_true]
  rw [ytPart_skip_row fetch dp key (pre.filter (fun r => r.platform == "youtube"))
    (post.filter (fun r => r.platform == "youtube")) row hk hx]

/-- C10 witness: a YouTube row with an unextractable URL and a present key is
processed exactly like an absent row. -/
theorem C10_unextractable_witness :
    pipeline wFetchOk wMetricsOk wDpNone (some "K") [wNormYTBad] =
      pipeline wFetchOk wMetricsOk wDpNone (some "K") [] :=
  C10_unextractable wFetchOk wMetricsOk wDpNone (some "K") [] [] wNormYTBad
    (by decide) rfl (by decide)

/-- C2: a list of 120 extracted identifiers is submitted in consecutive
chunks of sizes 50, 50, 20; when the second chunk's remote call raises,
exactly one error naming the 1-based range 51-100 is recorded, the first and
third chunks are still merged into the stats map, and every indexed row is
still enriched from that merged map. -/
theorem C2_chunking
    (fetch : List String → String → Except String (List (String × Stats)))
    (k e : String) (p1 p3 : List (String × Stats)) (ids : List String)
    (hlen : ids.length = 120)
    (h1 : fetch (ids.take 50) k = .ok p1)
    (h2 : fetch ((ids.drop 50).take 50) k = .error e)
    (h3 : fetch (ids.drop 100) k = .ok p3) :
    (ytChunks ids).map (fun c => c.2.length) = [50, 50, 20]
    ∧ ytRun fetch k (ytChunks ids) (fun _ => none) [] =
        (updMap (updMap (fun _ => none) p1) p3, ["YouTube 抓取失败（51-100）：" ++ e])
    ∧ (∀ (dp : String → Option PyDateTime) (ytrows : List NormRow), ytIds ytrows = ids →
        (ytPhase fetch dp k ytrows).1 =
          (ytIndexed ytrows).map (fun pr =>
            mkYtEnriched dp pr.2
              ((updMap (updMap (fun _ => none) p1) p3 pr.1).getD zeroStats))) := by
  have htake3 : (ids.drop 100).take 50 = ids.drop 100 := by
    apply List.take_of_length_le
    rw [List.length_drop, hlen]
    omega
  have hr3 : List.range 3 = [0, 1, 2] := by decide
  have hchunks : ytChunks ids =
      [(0, ids.take 50), (50, (ids.drop 50).take 50), (100, ids.drop 100)] := by
    unfold ytChunks
    rw [hlen]
    norm_num [hr3, htake3]
  have hblen : ((ids.drop 50).take 50).length = 50 := by
    rw [List.length_take, List.length_drop, hlen]
    omega
  have hmsg : chunkErrMsg 50 50 e = "YouTube 抓取失败（51-100）：" ++ e := by
    unfold chunkErrMsg
    exact congrArg (fun s => s ++ e) (by with_unfolding_all decide)
  have hrun : ytRun fetch k (ytChunks ids) (fun _ => none) [] =
      (updMap (updMap (fun _ => none) p1) p3, ["YouTube 抓取失败（51-100）：" ++ e]) := by
    rw [hchunks]
    simp only [ytRun, h1, h2, h3, List.nil_append]
    rw [hblen, hmsg]
  refine ⟨?_, hrun, ?_⟩
  · rw [hchunks]
    simp only [List.map_cons, List.map_nil, List.length_take, List.length_drop, hlen]
    norm_num
  · intro dp ytrows hids
    unfold ytPhase ytFetchAll ytIds
    rw [show (ytIndexed ytrows).map (fun p => p.1) = ids from hids, hrun]

/-- C2 witness: 120 synthetic ids with a second-chunk failure yield chunk
sizes 50, 50, 20. -/
theorem C2_chunking_witness :
    (ytChunks w2ids).map (fun c => c.2.length) = [50, 50, 20] :=
  (C2_chunking w2fetch "K" "boom" [] [] w2ids (by with_unfolding_all decide)
    (by with_unfolding_all decide) (by with_unfolding_all decide)
    (by with_unfolding_all decide)).1

/-- C8 (counterexample): the claim says every input carrying timezone
information is converted to UTC, but `_parse_datetime` returns a
datetime-typed aware input unchanged (processor.py line 110): for an input
with offset +3600 s the result keeps that offset instead of the UTC form. -/
theorem C8_timestamp_counterexample :
    parse_datetime (fun _ => none) (PyVal.dt w8aware) = some w8aware ∧
    some w8aware ≠ some (astimezoneUTC w8aware) := by
  constructor
  · rfl
  · decide

/-- C8 (amended): the timestamp resolver maps empty/blank/unparseable inputs
to null without raising; a parsed string lacking timezone information is
tagged UTC, and a parsed string carrying timezone information is converted
to UTC; a datetime-typed naive input is tagged UTC while a datetime-typed
aware input is returned unchanged with its original offset; and an 8-digit
`YYYYMMDD` upload date resolves to midnight UTC of that date. -/
theorem C8_timestamp_resolution (p : String → Option PyDateTime) :
    parse_datetime p PyVal.none = none
    ∧ (∀ t : PyDateTime, t.tz = none →
        parse_datetime p (PyVal.dt t) = some (pyReplaceUTC t))
    ∧ (∀ t : PyDateTime, t.tz.isSome → parse_datetime p (PyVal.dt t) = some t)
    ∧ (∀ s : String, s.trim = "" → parse_datetime p (PyVal.str s) = none)
    ∧ (∀ s : String, p s.trim = none → parse_datetime p (PyVal.str s) = none)
    ∧ (∀ (s : String) (t : PyDateTime), s.trim ≠ "" → p s.trim = some t → t.tz = none →
        parse_datetime p (PyVal.str s) = some (pyReplaceUTC t))
    ∧ (∀ (s : String) (t : PyDateTime) (o : ℤ), s.trim ≠ "" → p s.trim = some t →
        t.tz = some o → parse_datetime p (PyVal.str s) = some (astimezoneUTC t))
    ∧ (p "2023-01-15" = some ⟨2023, 1, 15, 0, 0, 0, none⟩ →
        parse_datetime p (PyVal.str "2023-01-15") = some ⟨2023, 1, 15, 0, 0, 0, some 0⟩)
    ∧ iso_from_upload_date (some "20220304") = some "2022-03-04T00:00:00+00:00" := by
  refine ⟨rfl, ?_, ?_, ?_, ?_, ?_, ?_, ?_, ?_⟩
  · intro t ht
    obtain ⟨ty, tmo, td, th, tmi, ts, ttz⟩ := t
    cases ttz with
    | some o => exact Option.noConfusion ht
    | none => rfl
  · intro t ht
    obtain ⟨ty, tmo, td, th, tmi, ts, ttz⟩ := t
    cases ttz with
    | some o => rfl
    | none => exact absurd ht (by simp)
  · intro s hs
    simp only [parse_datetime]
    rw [hs]
    rfl
  · intro s hp
    simp only [parse_datetime]
    cases hb : (s.trim == "") with
    | true => rfl
    | false =>
      simp only [Bool.false_eq_true, if_false]
      rw [hp]
  · intro s t hs hp ht
    have hb : (s.trim == "") = false := by simpa using hs
    simp only [parse_datetime]
    rw [hb]
    simp only [Bool.false_eq_true, if_false]
    rw [hp]
    show some (if t.tz.isSome = true then astimezoneUTC t else pyReplaceUTC t) =
      some (pyReplaceUTC t)
    rw [show t.tz.isSome = false from by simp [ht]]
    rfl
  · intro s t o hs hp ht
    have hb : (s.trim == "") = false := by simpa using hs
    simp only [parse_datetime]
    rw [hb]
    simp only [Bool.false_eq_true, if_false]
    rw [hp]
    show some (if t.tz.isSome = true then astimezoneUTC t else pyReplaceUTC t) =
      some (astimezoneUTC t)
    rw [show t.tz.isSome = true from by simp [ht]]
    rfl
  · intro hp
    simp only [parse_datetime]
    rw [show ("2023-01-15" : String).trim = "2023-01-15" from by with_unfolding_all decide]
    rw [hp]
    rfl
  · with_unfolding_all decide

/-- C8 witness: a concrete parser on the sheet string `"2023-01-15"`, an
aware string value, and a blank value. -/
theorem C8_timestamp_resolution_witness :
    parse_datetime w8p (PyVal.str "2023-01-15") = some ⟨2023, 1, 15, 0, 0, 0, some 0⟩ ∧
    parse_datetime w8p (PyVal.str "awareX") = some ⟨2023, 1, 15, 9, 0, 0, some 0⟩ ∧
    parse_datetime w8p (PyVal.str "  ") = none := by
  have htrA : ("awareX" : String).trim = "awareX" := by with_unfolding_all decide
  have htrD : ("2023-01-15" : String).trim = "2023-01-15" := by with_unfolding_all decide
  refine ⟨?_, ?_, ?_⟩
  · exact (C8_timestamp_resolution w8p).2.2.2.2.2.2.2.1 (by decide)
  · rw [(C8_timestamp_resolution w8p).2.2.2.2.2.2.1 "awareX" ⟨2023, 1, 15, 10, 0, 0, some 3600⟩
      3600 (by rw [htrA]; decide) (by rw [htrA]; decide) rfl]
    decide
  · exact (C8_timestamp_resolution w8p).2.2.2.1 "  " (by with_unfolding_all decide)
